import Mathlib

/-! GGUF format declarations (`gguf.h`).

A shallow embedding of the declarations of `gguf.h`: the two enumerations, the
value-name table, and the record and union declarations with their field
types.  Enumerator values follow the C rule (an enumerator without an
initialiser is one more than its predecessor, the first one is zero); sizes
and offsets follow the usual layout rules for fixed-width fields.
-/

namespace Gguf

/-! ## Enumerations -/

/-- One enumerator of a C `enum`: its identifier and its explicit initialiser,
when the source writes one. -/
structure Enumerator where
  name : String
  init : Option Nat
  deriving DecidableEq, Repr

/-- Values of the enumerators of a C `enum`, in declaration order: an explicit
initialiser is taken as written, otherwise the value is `next`, one more than
the previous enumerator. -/
def enumValuesFrom : Nat → List Enumerator → List (String × Nat)
  | _, [] => []
  | next, e :: es =>
    let v := e.init.getD next
    (e.name, v) :: enumValuesFrom (v + 1) es

/-- Values of the enumerators of a C `enum` (the first implicit value is 0). -/
def enumValues (es : List Enumerator) : List (String × Nat) :=
  enumValuesFrom 0 es

/-- Value of the enumerator called `n`, if the enumeration declares it. -/
def enumLookup (es : List Enumerator) (n : String) : Option Nat :=
  (enumValues es).lookup n

/-- The enumeration `enum gguf_tensor_type` (gguf.h lines 7-29).  The two commented-out lines
(former Q4_2 = 4 and Q4_3 = 5) declare nothing. -/
def gguf_tensor_type : List Enumerator :=
  [ ⟨"GUFF_TYPE_F32", some 0⟩,
    ⟨"GUFF_TYPE_F16", some 1⟩,
    ⟨"GUFF_TYPE_Q4_0", some 2⟩,
    ⟨"GUFF_TYPE_Q4_1", some 3⟩,
    ⟨"GUFF_TYPE_Q5_0", some 6⟩,
    ⟨"GUFF_TYPE_Q5_1", some 7⟩,
    ⟨"GUFF_TYPE_Q8_0", some 8⟩,
    ⟨"GUFF_TYPE_Q8_1", some 9⟩,
    ⟨"GUFF_TYPE_Q2_K", some 10⟩,
    ⟨"GUFF_TYPE_Q3_K", some 11⟩,
    ⟨"GUFF_TYPE_Q4_K", some 12⟩,
    ⟨"GUFF_TYPE_Q5_K", some 13⟩,
    ⟨"GUFF_TYPE_Q6_K", some 14⟩,
    ⟨"GUFF_TYPE_Q8_K", some 15⟩,
    ⟨"GUFF_TYPE_I8", none⟩,
    ⟨"GUFF_TYPE_I16", none⟩,
    ⟨"GUFF_TYPE_I32", none⟩,
    ⟨"GUFF_TYPE_COUNT", none⟩ ]

/-- The enumeration `enum gguf_value_type` (gguf.h lines 31-66). -/
def gguf_value_type : List Enumerator :=
  [ ⟨"GGUF_VALUE_TYPE_UINT8", some 0⟩,
    ⟨"GGUF_VALUE_TYPE_INT8", some 1⟩,
    ⟨"GGUF_VALUE_TYPE_UINT16", some 2⟩,
    ⟨"GGUF_VALUE_TYPE_INT16", some 3⟩,
    ⟨"GGUF_VALUE_TYPE_UINT32", some 4⟩,
    ⟨"GGUF_VALUE_TYPE_INT32", some 5⟩,
    ⟨"GGUF_VALUE_TYPE_FLOAT32", some 6⟩,
    ⟨"GGUF_VALUE_TYPE_BOOL", some 7⟩,
    ⟨"GGUF_VALUE_TYPE_STRING", some 8⟩,
    ⟨"GGUF_VALUE_TYPE_ARRAY", some 9⟩,
    ⟨"GGUF_VALUE_TYPE_UINT64", some 10⟩,
    ⟨"GGUF_VALUE_TYPE_INT64", some 11⟩,
    ⟨"GGUF_VALUE_TYPE_FLOAT64", some 12⟩,
    ⟨"GGUF_VALUE_TYPE_ARRAY_START", some 100⟩,
    ⟨"GGUF_VALUE_TYPE_ARRAY_END", some 101⟩ ]

/-- The tag numbers `enum gguf_value_type` declares, in declaration order. -/
def valueTags : List Nat :=
  (enumValues gguf_value_type).map Prod.snd

/-- Whether `t` is the value of an enumerator of `enum gguf_value_type`. -/
def isDeclaredValueType (t : Nat) : Bool :=
  valueTags.contains t

/-- The constant `GUFF_TYPE_COUNT`, the last enumerator of `enum gguf_tensor_type`
(0 if the enumeration did not declare it). -/
def GUFF_TYPE_COUNT : Nat :=
  (enumLookup gguf_tensor_type "GUFF_TYPE_COUNT").getD 0

/-- The tensor types of `enum gguf_tensor_type`: every enumerator except the
trailing counter `GUFF_TYPE_COUNT`, with its value. -/
def tensorTypes : List (String × Nat) :=
  (enumValues gguf_tensor_type).filter (fun p => p.1 != "GUFF_TYPE_COUNT")

/-- The tensor-type tag numbers, in declaration order. -/
def tensorTags : List Nat :=
  tensorTypes.map Prod.snd

/-- Whether `t` is the tag of a declared tensor type. -/
def isDeclaredTensorType (t : Nat) : Bool :=
  tensorTags.contains t

/-- The range check `t < GUFF_TYPE_COUNT`. -/
def tensorTagInRange (t : Nat) : Bool :=
  decide (t < GUFF_TYPE_COUNT)

/-! ## The value-name table -/

/-- The table `gguf_value_name[]` (gguf.h lines 68-72). -/
def gguf_value_name : Array String :=
  #[ "uint8", "int8", "uint16", "int16", "uint32", "int32",
     "float32", "bool", "string", "array", "uint64", "int64",
     "float64" ]

/-- The lookup `gguf_value_name[tag]`: `none` when the index is past the end
of the table. -/
def valueName (tag : Nat) : Option String :=
  gguf_value_name[tag]?

/-! ## The tables of the format description -/

/-- Value-type table of the format description (section 3, "Value Type Tag"):
tag and name of each row. -/
def spec_value_type_table : List (Nat × String) :=
  [ (0, "uint8"), (1, "int8"), (2, "uint16"), (3, "int16"), (4, "uint32"),
    (5, "int32"), (6, "float32"), (7, "bool"), (8, "string"), (9, "array"),
    (10, "uint64"), (11, "int64"), (12, "float64"),
    (100, "array-start"), (101, "array-end") ]

/-- On-disk tags of the format description: "each value-type tag read from
disk lies in {0..12}". -/
def spec_on_disk_tag (t : Nat) : Bool :=
  decide (t ≤ 12)

/-- Tensor types the format description lists for a tensor descriptor
(section 3): F32, F16, Q4_0, Q4_1, Q5_0, Q5_1, Q8_0, Q8_1, Q2_K..Q6_K, Q8_K,
I8, I16, I32. -/
def spec_tensor_types : List String :=
  [ "F32", "F16", "Q4_0", "Q4_1", "Q5_0", "Q5_1", "Q8_0", "Q8_1",
    "Q2_K", "Q3_K", "Q4_K", "Q5_K", "Q6_K", "Q8_K", "I8", "I16", "I32" ]

/-- Payload size in bytes of the fixed-size rows of the value-type table of
the format description; `none` for the length-prefixed rows (string, array),
the synthetic rows and tags that are not in the table. -/
def spec_payload_size : Nat → Option Nat
  | 0 => some 1
  | 1 => some 1
  | 2 => some 2
  | 3 => some 2
  | 4 => some 4
  | 5 => some 4
  | 6 => some 4
  | 7 => some 1
  | 10 => some 8
  | 11 => some 8
  | 12 => some 8
  | _ => none

/-! ## Field types and layout -/

/-- The scalar C types the declarations of `gguf.h` use. -/
inductive Scalar
  | uint8_t | int8_t | uint16_t | int16_t | uint32_t | int32_t
  | uint64_t | int64_t | float | double | char
  deriving DecidableEq, Repr

/-- Size in bytes of a scalar: the width of the `stdint.h` types, one byte
for `char`, IEEE-754 single and double precision for `float` and `double`. -/
def Scalar.size : Scalar → Nat
  | .uint8_t => 1
  | .int8_t => 1
  | .uint16_t => 2
  | .int16_t => 2
  | .uint32_t => 4
  | .int32_t => 4
  | .uint64_t => 8
  | .int64_t => 8
  | .float => 4
  | .double => 8
  | .char => 1

/-- Type of a struct field: a scalar, or a flexible array member `T name[]`
as the last field. -/
inductive FieldType
  | scalar (s : Scalar)
  | flexible (s : Scalar)
  deriving DecidableEq, Repr

/-- Bytes a field takes inside the struct: a flexible array member takes
none. -/
def FieldType.size : FieldType → Nat
  | .scalar s => s.size
  | .flexible _ => 0

/-- Natural alignment of a field: the size of its scalar (for a flexible array
member, of its element). -/
def FieldType.align : FieldType → Nat
  | .scalar s => s.size
  | .flexible s => s.size

/-- A named field of a struct. -/
structure Field where
  name : String
  type : FieldType
  deriving DecidableEq, Repr

/-- A struct declaration: its fields in order, and whether it carries
`__attribute__((packed))`. -/
structure StructDecl where
  packed : Bool
  fields : List Field
  deriving DecidableEq, Repr

/-- Smallest multiple of `a` that is at least `off`. -/
def alignUp (off a : Nat) : Nat :=
  (off + a - 1) / a * a

/-- Alignment a field is laid out with: 1 in a packed struct, its natural
alignment otherwise. -/
def fieldAlign (packed : Bool) (f : Field) : Nat :=
  if packed then 1 else f.type.align

/-- Offsets of the fields laid out in order starting at byte `cur`: each field
goes to the next offset that respects its alignment. -/
def offsetsFrom (packed : Bool) : Nat → List Field → List (String × Nat)
  | _, [] => []
  | cur, f :: fs =>
    let off := alignUp cur (fieldAlign packed f)
    (f.name, off) :: offsetsFrom packed (off + f.type.size) fs

/-- First byte after the last field, for fields laid out from byte `cur`. -/
def endFrom (packed : Bool) : Nat → List Field → Nat
  | cur, [] => cur
  | cur, f :: fs =>
    endFrom packed (alignUp cur (fieldAlign packed f) + f.type.size) fs

namespace StructDecl

/-- Offsets of the fields of a struct, by name. -/
def offsets (d : StructDecl) : List (String × Nat) :=
  offsetsFrom d.packed 0 d.fields

/-- Byte offset of the field `n` (`offsetof`). -/
def offsetOf (d : StructDecl) (n : String) : Option Nat :=
  d.offsets.lookup n

/-- Alignment of the struct: the largest alignment of its fields. -/
def align (d : StructDecl) : Nat :=
  (d.fields.map (fieldAlign d.packed)).foldl max 1

/-- Size of the struct in bytes: the end of the last field rounded up to the
alignment of the struct. -/
def byteSize (d : StructDecl) : Nat :=
  alignUp (endFrom d.packed 0 d.fields) d.align

/-- Sum of the sizes of the fields, padding not counted. -/
def fieldBytes (d : StructDecl) : Nat :=
  (d.fields.map (fun f => f.type.size)).sum

/-- Element size of the flexible array member of the struct (0 when it has
none). -/
def flexElemSize (d : StructDecl) : Nat :=
  match d.fields.getLast? with
  | some ⟨_, .flexible s⟩ => s.size
  | _ => 0

/-- Bytes taken by a value of the struct whose flexible array member holds
`n` elements: the fields before it, then the `n` elements. -/
def valueBytes (d : StructDecl) (n : Nat) : Nat :=
  endFrom d.packed 0 d.fields + n * d.flexElemSize

end StructDecl

/-- The record `struct gguf_string` (gguf.h lines 74-80). -/
def gguf_string : StructDecl :=
  ⟨false, [ ⟨"len", .scalar .uint64_t⟩, ⟨"string", .flexible .char⟩ ]⟩

/-- The anonymous packed struct of the member `array` of `union gguf_value`
(gguf.h lines 96-102). -/
def gguf_value_array : StructDecl :=
  ⟨true, [ ⟨"type", .scalar .uint32_t⟩, ⟨"len", .scalar .uint64_t⟩ ]⟩

/-- The record `struct gguf_header` (gguf.h lines 105-119). -/
def gguf_header : StructDecl :=
  ⟨false, [ ⟨"magic", .scalar .uint32_t⟩, ⟨"version", .scalar .uint32_t⟩,
            ⟨"tensor_count", .scalar .uint64_t⟩,
            ⟨"metadata_kv_count", .scalar .uint64_t⟩ ]⟩

/-- Type of a member of `union gguf_value`: a scalar or a struct. -/
inductive MemberType
  | scalar (s : Scalar)
  | struct (d : StructDecl)
  deriving DecidableEq, Repr

/-- Size in bytes of a member of the union. -/
def MemberType.size : MemberType → Nat
  | .scalar s => s.size
  | .struct d => d.byteSize

/-- A named member of a union. -/
structure Member where
  name : String
  type : MemberType
  deriving DecidableEq, Repr

/-- The union `union gguf_value` (gguf.h lines 82-103), members in declaration order. -/
def gguf_value : List Member :=
  [ ⟨"uint8", .scalar .uint8_t⟩,
    ⟨"int8", .scalar .int8_t⟩,
    ⟨"uint16", .scalar .uint16_t⟩,
    ⟨"int16", .scalar .int16_t⟩,
    ⟨"uint32", .scalar .uint32_t⟩,
    ⟨"int32", .scalar .int32_t⟩,
    ⟨"float32", .scalar .float⟩,
    ⟨"uint64", .scalar .uint64_t⟩,
    ⟨"int64", .scalar .int64_t⟩,
    ⟨"float64", .scalar .double⟩,
    ⟨"boolval", .scalar .uint8_t⟩,
    ⟨"string", .struct gguf_string⟩,
    ⟨"array", .struct gguf_value_array⟩ ]

/-- Whether the union member `m` is the one for the value type called `n` in
`gguf_value_name`: it carries that name, or that name followed by `val`
(the member for "bool" is `boolval`). -/
def memberMatches (n : String) (m : Member) : Bool :=
  m.name == n || m.name == n ++ "val"

/-- The member of `union gguf_value` for the value-type tag `t`: the member
matching `gguf_value_name[t]`, `none` when the tag has no name or no member
matches. -/
def memberOfTag (t : Nat) : Option Member :=
  (valueName t).bind (fun n => gguf_value.find? (memberMatches n))

/-- Whether a value-type tag is a leaf: a declared value type that is neither
the array tag 9 nor one of the synthetic tags 100 and 101. -/
def isLeafTag (t : Nat) : Bool :=
  isDeclaredValueType t && t != 9 && t != 100 && t != 101

/-- The leaf value types `enum gguf_value_type` declares. -/
def leafTags : List Nat :=
  valueTags.filter isLeafTag

/-- Name the format description uses for an enumerator: the identifier
without its leading `lead`, `none` when the identifier does not start with
it. -/
def dropLeading (lead : String) (s : String) : Option String :=
  if lead.data.isPrefixOf s.data then some ⟨s.data.drop lead.data.length⟩ else none

/-- Lower-case form of an identifier, with `-` for `_`. -/
def lowerDashed (s : String) : String :=
  ⟨s.data.map (fun c => if c = '_' then '-' else c.toLower)⟩

/-- Name of a value-type enumerator as the value-type table writes it:
`GGUF_VALUE_TYPE_ARRAY_START` becomes `array-start`. -/
def valueTypeRowName (s : String) : Option String :=
  (dropLeading "GGUF_VALUE_TYPE_" s).map lowerDashed

/-! ## Helper lemmas -/

theorem valueTags_eq :
    valueTags = [0, 1, 2, 3, 4, 5, 6, 7, 8, 9, 10, 11, 12, 100, 101] := by
  decide

theorem tensorTags_eq :
    tensorTags = [0, 1, 2, 3, 6, 7, 8, 9, 10, 11, 12, 13, 14, 15, 16, 17, 18] := by
  decide

theorem GUFF_TYPE_COUNT_eq : GUFF_TYPE_COUNT = 19 := by
  decide

theorem isDeclaredValueType_iff (t : Nat) :
    isDeclaredValueType t = true ↔ (t ≤ 12 ∨ t = 100 ∨ t = 101) := by
  unfold isDeclaredValueType
  rw [valueTags_eq]
  simp only [List.contains_iff_exists_mem_beq, beq_iff_eq, List.mem_cons,
    List.mem_singleton, List.not_mem_nil, or_false, exists_eq_right']
  omega

theorem isDeclaredTensorType_iff (t : Nat) :
    isDeclaredTensorType t = true ↔ (t ≤ 18 ∧ t ≠ 4 ∧ t ≠ 5) := by
  unfold isDeclaredTensorType
  rw [tensorTags_eq]
  simp only [List.contains_iff_exists_mem_beq, beq_iff_eq, List.mem_cons,
    List.mem_singleton, List.not_mem_nil, or_false, exists_eq_right']
  omega

theorem valueName_none_of_gt (t : Nat) (h : 12 < t) : valueName t = none := by
  have hsize : gguf_value_name.size = 13 := by decide
  unfold valueName
  rw [Array.getElem?_eq_none_iff, hsize]
  omega

theorem valueName_isSome_of_le (t : Nat) (h : t ≤ 12) : (valueName t).isSome = true := by
  have key : ∀ k < 13, (valueName k).isSome = true := by decide
  exact key t (by omega)

/-! ## The value-type enumeration -/

/-- C1: `enum gguf_value_type` assigns exactly the tag numbers of the
value-type table of the format description (uint8 = 0, ..., float64 = 12,
array-start = 100, array-end = 101); the declared tags are exactly 0..12
together with 100 and 101; a tag is an on-disk tag iff it is declared and at
most 12; the only declared tags that are not on-disk tags are 100 and 101. -/
theorem value_type_tags_match_table :
    enumValues gguf_value_type =
        [ ("GGUF_VALUE_TYPE_UINT8", 0), ("GGUF_VALUE_TYPE_INT8", 1),
          ("GGUF_VALUE_TYPE_UINT16", 2), ("GGUF_VALUE_TYPE_INT16", 3),
          ("GGUF_VALUE_TYPE_UINT32", 4), ("GGUF_VALUE_TYPE_INT32", 5),
          ("GGUF_VALUE_TYPE_FLOAT32", 6), ("GGUF_VALUE_TYPE_BOOL", 7),
          ("GGUF_VALUE_TYPE_STRING", 8), ("GGUF_VALUE_TYPE_ARRAY", 9),
          ("GGUF_VALUE_TYPE_UINT64", 10), ("GGUF_VALUE_TYPE_INT64", 11),
          ("GGUF_VALUE_TYPE_FLOAT64", 12),
          ("GGUF_VALUE_TYPE_ARRAY_START", 100),
          ("GGUF_VALUE_TYPE_ARRAY_END", 101) ]
      ∧ (enumValues gguf_value_type).map (fun p => (some p.2, valueTypeRowName p.1))
          = spec_value_type_table.map (fun r => (some r.1, some r.2))
      ∧ (∀ t, isDeclaredValueType t = true ↔ (t ≤ 12 ∨ t = 100 ∨ t = 101))
      ∧ (∀ t, spec_on_disk_tag t = true ↔ (isDeclaredValueType t = true ∧ t ≤ 12))
      ∧ (∀ t, (isDeclaredValueType t = true ∧ spec_on_disk_tag t = false)
              ↔ (t = 100 ∨ t = 101)) := by
  refine ⟨by decide, by decide, isDeclaredValueType_iff, ?_, ?_⟩
  · intro t
    rw [isDeclaredValueType_iff]
    simp only [spec_on_disk_tag, decide_eq_true_eq]
    omega
  · intro t
    rw [isDeclaredValueType_iff]
    simp only [spec_on_disk_tag, decide_eq_false_iff_not]
    omega

/-! ## The tensor-type enumeration -/

/-- C3: the tensor types `enum gguf_tensor_type` declares are exactly
F32 = 0, F16 = 1, Q4_0 = 2, Q4_1 = 3, Q5_0 = 6, Q5_1 = 7, Q8_0 = 8, Q8_1 = 9,
Q2_K = 10, Q3_K = 11, Q4_K = 12, Q5_K = 13, Q6_K = 14, Q8_K = 15, I8 = 16,
I16 = 17, I32 = 18, the last three without an initialiser; they are the
seventeen types the format description lists, their tags are pairwise
distinct, none is 4 or 5, and membership in the declared set rejects 4 and
5. -/
theorem tensor_type_tags_exact :
    tensorTypes =
        [ ("GUFF_TYPE_F32", 0), ("GUFF_TYPE_F16", 1), ("GUFF_TYPE_Q4_0", 2),
          ("GUFF_TYPE_Q4_1", 3), ("GUFF_TYPE_Q5_0", 6), ("GUFF_TYPE_Q5_1", 7),
          ("GUFF_TYPE_Q8_0", 8), ("GUFF_TYPE_Q8_1", 9), ("GUFF_TYPE_Q2_K", 10),
          ("GUFF_TYPE_Q3_K", 11), ("GUFF_TYPE_Q4_K", 12), ("GUFF_TYPE_Q5_K", 13),
          ("GUFF_TYPE_Q6_K", 14), ("GUFF_TYPE_Q8_K", 15), ("GUFF_TYPE_I8", 16),
          ("GUFF_TYPE_I16", 17), ("GUFF_TYPE_I32", 18) ]
      ∧ (gguf_tensor_type.filter (fun e => e.init.isNone)).map (fun e => e.name)
          = ["GUFF_TYPE_I8", "GUFF_TYPE_I16", "GUFF_TYPE_I32", "GUFF_TYPE_COUNT"]
      ∧ tensorTypes.map (fun p => dropLeading "GUFF_TYPE_" p.1)
          = spec_tensor_types.map some
      ∧ tensorTypes.length = 17
      ∧ tensorTags.Nodup
      ∧ 4 ∉ tensorTags ∧ 5 ∉ tensorTags
      ∧ isDeclaredTensorType 4 = false ∧ isDeclaredTensorType 5 = false
      ∧ (∀ t, isDeclaredTensorType t = true ↔ t ∈ tensorTags) := by
  refine ⟨by decide, by decide, by decide, by decide, by decide, by decide,
    by decide, by decide, by decide, ?_⟩
  intro t
  simp [isDeclaredTensorType]

/-- C9: `GUFF_TYPE_COUNT` is 19 (by implicit increment), one more than the
largest declared tensor-type tag 18 and not the number 17 of declared tensor
types; every declared tensor-type tag is below it; the tags below it that are
not declared are exactly 4 and 5, which the range check alone accepts; a tag
is a declared tensor type iff it is below `GUFF_TYPE_COUNT` and is neither 4
nor 5. -/
theorem type_count_is_bound_not_cardinality :
    GUFF_TYPE_COUNT = 19
      ∧ (gguf_tensor_type.getLast?).map (fun e => (e.name, e.init))
          = some ("GUFF_TYPE_COUNT", none)
      ∧ tensorTags.max? = some 18
      ∧ enumLookup gguf_tensor_type "GUFF_TYPE_I32" = some 18
      ∧ GUFF_TYPE_COUNT = 18 + 1
      ∧ tensorTypes.length = 17
      ∧ GUFF_TYPE_COUNT ≠ tensorTypes.length
      ∧ (∀ t, isDeclaredTensorType t = true → t < GUFF_TYPE_COUNT)
      ∧ (∀ t, (tensorTagInRange t = true ∧ isDeclaredTensorType t = false)
              ↔ (t = 4 ∨ t = 5))
      ∧ tensorTagInRange 4 = true ∧ tensorTagInRange 5 = true
      ∧ (∀ t, isDeclaredTensorType t = true
              ↔ (t < GUFF_TYPE_COUNT ∧ t ≠ 4 ∧ t ≠ 5)) := by
  refine ⟨by decide, by decide, by decide, by decide, by decide, by decide,
    by decide, ?_, ?_, by decide, by decide, ?_⟩
  · intro t h
    rw [isDeclaredTensorType_iff] at h
    rw [GUFF_TYPE_COUNT_eq]
    omega
  · intro t
    have h := isDeclaredTensorType_iff t
    rw [← Bool.not_eq_true, h]
    simp only [tensorTagInRange, decide_eq_true_eq, GUFF_TYPE_COUNT_eq]
    omega
  · intro t
    rw [isDeclaredTensorType_iff, GUFF_TYPE_COUNT_eq]
    omega

/-! ## The value-name table and the value-type enumeration -/

/-- C4: for every on-disk tag `t` in 0..12, `gguf_value_name[t]` is the name
the value-type table gives for tag `t`; the table is in the order of the
numeric values of `enum gguf_value_type`; the thirteen names are pairwise
distinct, so the tag-to-name map is injective. -/
theorem value_names_follow_tags :
    (∀ t, t ≤ 12 → valueName t = spec_value_type_table.lookup t
                    ∧ (valueName t).isSome = true)
      ∧ (List.range 13).map valueName =
          [ some "uint8", some "int8", some "uint16", some "int16",
            some "uint32", some "int32", some "float32", some "bool",
            some "string", some "array", some "uint64", some "int64",
            some "float64" ]
      ∧ ((enumValues gguf_value_type).filter (fun p => spec_on_disk_tag p.2)).map
            (fun p => (valueName p.2, p.2))
          = ((enumValues gguf_value_type).filter (fun p => spec_on_disk_tag p.2)).enum.map
            (fun q => (valueTypeRowName q.2.1, q.1))
      ∧ gguf_value_name.toList.Nodup
      ∧ (∀ s t, s ≤ 12 → t ≤ 12 → valueName s = valueName t → s = t) := by
  refine ⟨?_, by decide, by decide, by decide, ?_⟩
  · have key : ∀ k < 13, valueName k = spec_value_type_table.lookup k
        ∧ (valueName k).isSome = true := by decide
    intro t ht
    exact key t (by omega)
  · have key : ∀ a < 13, ∀ b < 13, valueName a = valueName b → a = b := by decide
    intro s t hs ht h
    exact key s (by omega) t (by omega) h

/-- C10: `gguf_value_name` has exactly 13 entries; the lookup
`gguf_value_name[tag]` is in bounds exactly for the tags 0..12; for a declared
enumerator of `gguf_value_type` it is in bounds iff the tag is not one of the
sentinels 100 and 101, which index past the end of the table. -/
theorem value_name_lookup_domain :
    gguf_value_name.size = 13
      ∧ (∀ t, (valueName t).isSome = true ↔ t ≤ 12)
      ∧ (∀ t, t < gguf_value_name.size ↔ t ≤ 12)
      ∧ (∀ t, isDeclaredValueType t = true →
              ((valueName t).isSome = true ↔ (t ≠ 100 ∧ t ≠ 101)))
      ∧ enumLookup gguf_value_type "GGUF_VALUE_TYPE_ARRAY_START" = some 100
      ∧ enumLookup gguf_value_type "GGUF_VALUE_TYPE_ARRAY_END" = some 101
      ∧ gguf_value_name.size ≤ 100 ∧ gguf_value_name.size ≤ 101
      ∧ valueName 100 = none ∧ valueName 101 = none := by
  have hsize : gguf_value_name.size = 13 := by decide
  have hdom : ∀ t, (valueName t).isSome = true ↔ t ≤ 12 := by
    intro t
    constructor
    · intro h
      by_contra hlt
      rw [valueName_none_of_gt t (by omega)] at h
      simp at h
    · exact valueName_isSome_of_le t
  refine ⟨hsize, hdom, ?_, ?_, by decide, by decide, by decide, by decide,
    by decide, by decide⟩
  · intro t
    rw [hsize]
    omega
  · intro t hdecl
    rw [isDeclaredValueType_iff] at hdecl
    rw [hdom]
    omega

/-! ## Leaf value types -/

/-- C7 (as stated, refuted): the number of leaf value types declared by
`enum gguf_value_type` is not thirteen. -/
theorem leaf_value_types_not_thirteen : ¬ (leafTags.length = 13) := by
  decide

/-- C7 (amended): `enum gguf_value_type` declares exactly twelve leaf value
types, the tags 0..8 and 10..12: eight integers (tags 0..5, 10, 11), two
floats (6, 12), the boolean (7) and the string (8); thirteen is the number of
on-disk tags, the twelve leaves together with the array tag 9. -/
theorem leaf_value_types_twelve :
    leafTags = [0, 1, 2, 3, 4, 5, 6, 7, 8, 10, 11, 12]
      ∧ leafTags.length = 12
      ∧ leafTags.map valueName =
          [ some "uint8", some "int8", some "uint16", some "int16",
            some "uint32", some "int32", some "float32", some "bool",
            some "string", some "uint64", some "int64", some "float64" ]
      ∧ (∀ t, isLeafTag t = true ↔ (t ≤ 8 ∨ (10 ≤ t ∧ t ≤ 12)))
      ∧ (valueTags.filter spec_on_disk_tag).length = 13
      ∧ (valueTags.filter spec_on_disk_tag).length = leafTags.length + 1 := by
  refine ⟨by decide, by decide, by decide, ?_, by decide, by decide⟩
  intro t
  have h := isDeclaredValueType_iff t
  simp only [isLeafTag, Bool.and_eq_true, bne_iff_ne, ne_eq, h]
  omega

/-! ## Record layouts -/

/-- C2: `struct gguf_header` is a 24-byte prefix without padding: under
natural alignment `magic` (4 bytes) is at offset 0, `version` (4 bytes) at 4,
`tensor_count` (8 bytes) at 8 and `metadata_kv_count` (8 bytes) at 16; the
size of the struct, the offset of the first byte after it, is 24. -/
theorem header_layout_24_bytes :
    gguf_header.packed = false
      ∧ gguf_header.offsets =
          [ ("magic", 0), ("version", 4), ("tensor_count", 8),
            ("metadata_kv_count", 16) ]
      ∧ gguf_header.fields.map (fun f => (f.name, f.type.size)) =
          [ ("magic", 4), ("version", 4), ("tensor_count", 8),
            ("metadata_kv_count", 8) ]
      ∧ gguf_header.offsetOf "magic" = some 0
      ∧ gguf_header.offsetOf "version" = some 4
      ∧ gguf_header.offsetOf "tensor_count" = some 8
      ∧ gguf_header.offsetOf "metadata_kv_count" = some 16
      ∧ gguf_header.byteSize = 24
      ∧ endFrom gguf_header.packed 0 gguf_header.fields = 24
      ∧ gguf_header.fieldBytes = gguf_header.byteSize
      ∧ (StructDecl.mk true gguf_header.fields).offsets = gguf_header.offsets := by
  decide

/-- C5: the member `array` of `union gguf_value` is a packed struct whose
element-type field `type` (a `uint32_t`) is at bytes 0..3 and whose count
`len` (a `uint64_t`) is at bytes 4..11, without padding: the array header is
12 bytes and the first element starts 12 bytes after the start of the value;
with natural alignment of the count the same fields would take 16 bytes. -/
theorem array_header_packed_12_bytes :
    gguf_value.find? (fun m => m.name == "array")
        = some ⟨"array", .struct gguf_value_array⟩
      ∧ gguf_value_array.packed = true
      ∧ gguf_value_array.fields =
          [ ⟨"type", .scalar .uint32_t⟩, ⟨"len", .scalar .uint64_t⟩ ]
      ∧ gguf_value_array.offsets = [("type", 0), ("len", 4)]
      ∧ gguf_value_array.fields.map (fun f => (f.name, f.type.size)) =
          [("type", 4), ("len", 8)]
      ∧ gguf_value_array.byteSize = 12
      ∧ endFrom gguf_value_array.packed 0 gguf_value_array.fields = 12
      ∧ gguf_value_array.fieldBytes = gguf_value_array.byteSize
      ∧ (MemberType.struct gguf_value_array).size = 12
      ∧ (StructDecl.mk false gguf_value_array.fields).offsets
          = [("type", 0), ("len", 8)]
      ∧ (StructDecl.mk false gguf_value_array.fields).byteSize = 16 := by
  decide

/-- C6: in `struct gguf_string` the 64-bit length `len` is at offset 0 and
the bytes `string` begin at offset 8 right after it; the fixed part of the
struct is 8 bytes; a string value of length `L`, zero included, takes exactly
`8 + L` bytes, no terminator byte counted. -/
theorem string_layout_8_plus_len :
    gguf_string.fields =
        [ ⟨"len", .scalar .uint64_t⟩, ⟨"string", .flexible .char⟩ ]
      ∧ gguf_string.offsets = [("len", 0), ("string", 8)]
      ∧ gguf_string.fields.map (fun f => (f.name, f.type.size)) =
          [("len", 8), ("string", 0)]
      ∧ gguf_string.byteSize = 8
      ∧ gguf_string.fieldBytes = gguf_string.byteSize
      ∧ gguf_string.flexElemSize = 1
      ∧ (∀ L, gguf_string.valueBytes L = 8 + L)
      ∧ gguf_string.valueBytes 0 = 8 := by
  refine ⟨by decide, by decide, by decide, by decide, by decide, by decide, ?_,
    by decide⟩
  intro L
  have hend : endFrom gguf_string.packed 0 gguf_string.fields = 8 := by decide
  have hel : gguf_string.flexElemSize = 1 := by decide
  unfold StructDecl.valueBytes
  rw [hend, hel, Nat.mul_one]

/-! ## The value union -/

/-- C8: `union gguf_value` has exactly thirteen members, one for each tag in
0..12 (uint8, int8, uint16, int16, uint32, int32, float32, boolval, string,
array, uint64, int64, float64); distinct tags have distinct members and every
member belongs to a tag in 0..12, so none is left for the synthetic tags 100
and 101, which have no member; for every fixed-size tag the width of its
member is the payload size of the value-type table. -/
theorem value_union_members :
    gguf_value.length = 13
      ∧ (gguf_value.map (fun m => m.name)).Nodup
      ∧ (List.range 13).map (fun t => (memberOfTag t).map (fun m => m.name)) =
          [ some "uint8", some "int8", some "uint16", some "int16",
            some "uint32", some "int32", some "float32", some "boolval",
            some "string", some "array", some "uint64", some "int64",
            some "float64" ]
      ∧ (∀ t, (memberOfTag t).isSome = true ↔ t ≤ 12)
      ∧ (∀ s t, s ≤ 12 → t ≤ 12 → memberOfTag s = memberOfTag t → s = t)
      ∧ (∀ m ∈ gguf_value, ∃ t, t ≤ 12 ∧ memberOfTag t = some m)
      ∧ memberOfTag 100 = none ∧ memberOfTag 101 = none
      ∧ (∀ t w, spec_payload_size t = some w →
              (memberOfTag t).map (fun m => m.type.size) = some w)
      ∧ (List.range 13).map (fun t => (memberOfTag t).map (fun m => m.type.size)) =
          [ some 1, some 1, some 2, some 2, some 4, some 4, some 4, some 1,
            some 8, some 12, some 8, some 8, some 8 ] := by
  have hnone : ∀ t, 12 < t → memberOfTag t = none := by
    intro t ht
    unfold memberOfTag
    rw [valueName_none_of_gt t ht]
    rfl
  have hsome : ∀ k < 13, (memberOfTag k).isSome = true := by decide
  refine ⟨by decide, by decide, by decide, ?_, ?_, ?_, by decide, by decide, ?_,
    by decide⟩
  · intro t
    constructor
    · intro h
      by_contra hlt
      rw [hnone t (by omega)] at h
      simp at h
    · intro h
      exact hsome t (by omega)
  · have key : ∀ a < 13, ∀ b < 13, memberOfTag a = memberOfTag b → a = b := by
      decide
    intro s t hs ht h
    exact key s (by omega) t (by omega) h
  · have key : ∀ m ∈ gguf_value, ∃ t, t < 13 ∧ memberOfTag t = some m := by
      decide
    intro m hm
    obtain ⟨t, ht, h⟩ := key m hm
    exact ⟨t, by omega, h⟩
  · intro t w h
    by_cases ht : t ≤ 12
    · have key : ∀ k < 13, ∀ v, spec_payload_size k = some v →
          (memberOfTag k).map (fun m => m.type.size) = some v := by
        intro k hk v
        interval_cases k <;> simp [spec_payload_size] <;> rintro rfl <;> decide
      exact key t (by omega) w h
    · exfalso
      have : spec_payload_size t = none := by
        unfold spec_payload_size
        split <;> first | omega | rfl
      rw [this] at h
      simp at h

end Gguf
